import Mathlib

/-!
Verification of the Roslyn-Stone Gradio console core: the MCP JSON-RPC
transport client (`McpHttpClient` in components/mcp_client.py) and the
provider tool-calling relay loop (utils/llm_providers.py), together with
the resource formatter of tabs/resources.py.

Modelling conventions:
* Python `str` is modelled as `List Char` (a sequence of code points).
* JSON values are the inductive `Json`; `json.loads` is an external
  standard-library call, so decoding is a parameter
  `parse : List Char → Except (List Char) Json` (its error carries the
  exception message).  `json.dumps` is modelled concretely (`dumpsC`,
  `dumpsI2`) because the claims depend on its output.
* Python exceptions are modelled with `Except (List Char) _`; a function
  that can fall off the end and return `None` yields an `Option`.
* HTTP traffic is a parameter: the outcome of `httpx.Client.post` plus
  `raise_for_status` is a `TransportResult` (network failure, or a status
  code with a body).
-/

/-- JSON values as decoded by `json.loads`.  Numbers are restricted to
integers, which are the only numerals the verified code paths touch.
Objects are association lists; `json.loads` produces unique keys. -/
inductive Json where
  | null : Json
  | bool (b : Bool) : Json
  | num (n : Int) : Json
  | str (s : List Char) : Json
  | arr (xs : List Json) : Json
  | obj (kvs : List (List Char × Json)) : Json

/-- Python error/exception messages, modelled as plain strings. -/
abbrev PyErr := List Char

/-- Left and right curly-brace characters (used when serializing). -/
def lbrace : Char := Char.ofNat 123

def rbrace : Char := Char.ofNat 125

/-- Whitespace as removed by Python `str.strip()`. -/
def pyIsWS (c : Char) : Bool :=
  c == ' ' || c == '\n' || c == '\t' || c == '\x0d' || c == '\x0b' || c == '\x0c'

/-- Remove leading whitespace (`str.lstrip`). -/
def stripLeft : List Char → List Char
  | [] => []
  | c :: rest => if pyIsWS c then stripLeft rest else c :: rest

/-- Remove trailing whitespace (`str.rstrip`). -/
def stripRight (s : List Char) : List Char :=
  (stripLeft s.reverse).reverse

/-- Python `str.strip()`. -/
def pyStrip (s : List Char) : List Char :=
  stripLeft (stripRight s)

/-- Python `"x".split("\n")`: split on every newline, keeping empties. -/
def splitNl : List Char → List (List Char)
  | [] => [[]]
  | c :: rest =>
    if c = '\n' then [] :: splitNl rest
    else
      match splitNl rest with
      | [] => [[c]]
      | line :: more => (c :: line) :: more

/-- Python `str.startswith(pre)`. -/
def pyStartsWith : List Char → List Char → Bool
  | [], _ => true
  | _ :: _, [] => false
  | p :: ps, c :: cs => p = c && pyStartsWith ps cs

/-- Membership of a key in a JSON object's association list
(`"k" in d` for a Python dict). -/
def hasKey (k : List Char) : List (List Char × Json) → Bool
  | [] => false
  | kv :: rest => kv.1 = k || hasKey k rest

/-- Association-list lookup; total because callers check `hasKey` first. -/
def lookupKey (k : List Char) : List (List Char × Json) → Json
  | [] => Json.null
  | kv :: rest => if kv.1 = k then kv.2 else lookupKey k rest

/-- Whether a JSON value equals a given Python string under Python `==`
(only the string itself does). -/
def jsonEqStr (j : Json) (s : List Char) : Bool :=
  match j with
  | Json.str t => t = s
  | _ => false

/-- Substring test, Python `needle in haystack` for strings. -/
def strContainsSub (needle : List Char) : List Char → Bool
  | [] => needle.isEmpty
  | c :: rest => pyStartsWith needle (c :: rest) || strContainsSub needle rest

/-- Python `key in value` for a string key and an arbitrary decoded JSON
value: key membership for a dict, element membership (via `==`) for a
list, substring test for a string, and a `TypeError` for the remaining
types. -/
def pyContainsStr (key : List Char) : Json → Except PyErr Bool
  | Json.obj kvs => .ok (hasKey key kvs)
  | Json.arr xs => .ok (xs.any (fun j => jsonEqStr j key))
  | Json.str s => .ok (strContainsSub key s)
  | _ => .error "argument of type is not iterable".data

/-- Python `value[key]` for a string key on a value known to contain the
key: dict lookup succeeds; a list or string raises a `TypeError`. -/
def pyIndexStr (key : List Char) : Json → Except PyErr Json
  | Json.obj kvs => .ok (lookupKey key kvs)
  | _ => .error "indices must be integers".data

/-- Python `result.get(key, default)`: only dicts have `.get`;
anything else raises an `AttributeError`. -/
def pyDictGet (key : List Char) (dflt : Json) : Json → Except PyErr Json
  | Json.obj kvs => .ok (if hasKey key kvs then lookupKey key kvs else dflt)
  | _ => .error "object has no attribute get".data

/-- Unwrapping of a decoded JSON-RPC envelope, exactly the code after
`json.loads` in `McpHttpClient._send_request`:
`if "error" in result: return {"error": result["error"]}` and otherwise
`return result.get("result", {})`.  A `TypeError`/`AttributeError`
raised here is caught by the surrounding `except Exception` and turned
into `{"error": str(e)}`, which this function already folds in. -/
def unwrapEnvelope (result : Json) : Json :=
  match pyContainsStr "error".data result with
  | .error e => Json.obj [("error".data, Json.str e)]
  | .ok true =>
    match pyIndexStr "error".data result with
    | .error e => Json.obj [("error".data, Json.str e)]
    | .ok v => Json.obj [("error".data, v)]
  | .ok false =>
    match pyDictGet "result".data (Json.obj []) result with
    | .error e => Json.obj [("error".data, Json.str e)]
    | .ok v => v

/-- Outcome of `httpx.Client.post`: either the request itself raised an
`httpx.HTTPError` (connection failure, timeout), or a response with a
status code and a text body was received. -/
inductive TransportResult where
  | netError (msg : PyErr) : TransportResult
  | response (status : Nat) (body : List Char) : TransportResult

/-- Message of the `httpx.HTTPStatusError` raised by
`response.raise_for_status()` on a non-2xx status. -/
def statusErrMsg (status : Nat) : PyErr :=
  "HTTP status error ".data ++ (toString status).data

/-- The first `data: `-prefixed line of the SSE body, with the
six-character prefix removed — the inner loop of `_send_request`'s SSE
branch.  `none` means the loop found no such line and the function body
falls through. -/
def findDataLine : List (List Char) → Option (List Char)
  | [] => none
  | line :: rest =>
    if pyStartsWith "data: ".data line then some (line.drop 6)
    else findDataLine rest

/-- `McpHttpClient._send_request` (mcp_client.py lines 36-71), given the
transport outcome for the POST.  Returns `some v` when the Python
function returns the dict/value `v`, and `none` when it falls off the
end of the SSE branch and implicitly returns Python `None` (an SSE body
with no `data: ` line).  All exceptions — `httpx.HTTPError`,
`json.JSONDecodeError`, and anything else via `except Exception` —
are captured as `{"error": str(e)}`. -/
def sendRequest (parse : List Char → Except PyErr Json)
    (t : TransportResult) : Option Json :=
  match t with
  | .netError msg => some (Json.obj [("error".data, Json.str msg)])
  | .response status body =>
    if status < 200 ∨ 300 ≤ status then
      some (Json.obj [("error".data, Json.str (statusErrMsg status))])
    else if pyStartsWith "event:".data body then
      match findDataLine (splitNl (pyStrip body)) with
      | none => none
      | some jsonData =>
        match parse jsonData with
        | .error e => some (Json.obj [("error".data, Json.str e)])
        | .ok result => some (unwrapEnvelope result)
    else
      match parse body with
      | .error e => some (Json.obj [("error".data, Json.str e)])
      | .ok result => some (unwrapEnvelope result)

/-- A listing wrapper's body, shared by `list_tools`, `list_resources`
and `list_prompts`: `result = self._send_request(m)`, then
`if "error" in result: return []`, then `result.get(key, [])`.
`.error e` models an exception escaping the wrapper (it has no
`try`/`except` of its own). -/
def listWrapper (key : List Char) (sent : Option Json) :
    Except PyErr Json :=
  match sent with
  | none => .error "argument of type NoneType is not iterable".data
  | some result =>
    match pyContainsStr "error".data result with
    | .error e => .error e
    | .ok true => .ok (Json.arr [])
    | .ok false =>
      match pyDictGet key (Json.arr []) result with
      | .error e => .error e
      | .ok v => .ok v

/-- `McpHttpClient.list_tools` (mcp_client.py lines 73-79). -/
def list_tools (parse : List Char → Except PyErr Json)
    (t : TransportResult) : Except PyErr Json :=
  listWrapper "tools".data (sendRequest parse t)

/-- `McpHttpClient.list_resources` (mcp_client.py lines 81-87). -/
def list_resources (parse : List Char → Except PyErr Json)
    (t : TransportResult) : Except PyErr Json :=
  listWrapper "resourceTemplates".data (sendRequest parse t)

/-- `McpHttpClient.list_prompts` (mcp_client.py lines 89-95). -/
def list_prompts (parse : List Char → Except PyErr Json)
    (t : TransportResult) : Except PyErr Json :=
  listWrapper "prompts".data (sendRequest parse t)

/-- The spec's `RpcOutcome`: `Success{result}` or `Failure{message}`. -/
inductive RpcOutcome where
  | success (result : Json) : RpcOutcome
  | failure (payload : Json) : RpcOutcome

/-- Whether a value is Failure-shaped: a mapping with an `"error"` key
(the shape every call site of `_send_request` tests with
`"error" in result`). -/
def isErrObj : Json → Bool
  | Json.obj kvs => hasKey "error".data kvs
  | _ => false

/-- The `"error"` payload of a Failure-shaped value. -/
def errPayload : Json → Json
  | Json.obj kvs => lookupKey "error".data kvs
  | _ => Json.null

/-- How every call site of `_send_request` classifies its return value:
a dict containing an `"error"` key is a `Failure` carrying that payload,
anything else is a `Success` carrying the value itself.  This is the
only observable Success/Failure distinction the code has. -/
def classify (j : Json) : RpcOutcome :=
  if isErrObj j then .failure (errPayload j) else .success j

/-- The exact SSE frame the server wraps a JSON-RPC response in:
`event: message\ndata: <json>\n\n`. -/
def sseWrap (s : List Char) : List Char :=
  "event: message\ndata: ".data ++ s ++ "\n\n".data

/-- Truthiness of a decoded JSON value under Python `bool(...)`. -/
def pyTruthy : Json → Bool
  | Json.null => false
  | Json.bool b => b
  | Json.num n => n ≠ 0
  | Json.str s => ¬s.isEmpty
  | Json.arr xs => ¬xs.isEmpty
  | Json.obj kvs => ¬kvs.isEmpty

/-- Python `x or default` for an optional string: `None` and the empty
string are falsy. -/
def pyOrStr (x : Option (List Char)) (dflt : List Char) : List Char :=
  match x with
  | none => dflt
  | some s => if s.isEmpty then dflt else s

/-- JSON string escaping as done by `json.dumps` (the characters that
occur in the verified inputs: quote, backslash, newline). -/
def escChar (c : Char) : List Char :=
  if c = '"' then ['\\', '"']
  else if c = '\\' then ['\\', '\\']
  else if c = '\n' then ['\\', 'n']
  else [c]

def escapeStr (s : List Char) : List Char :=
  (s.map escChar).flatten

/-- `n` copies of a character (indentation). -/
def repChar (c : Char) : Nat → List Char
  | 0 => []
  | n + 1 => c :: repChar c n

mutual

/-- `json.dumps(x)` with default separators `", "` and `": "`. -/
def dumpsC : Json → List Char
  | Json.null => "null".data
  | Json.bool b => if b then "true".data else "false".data
  | Json.num n => (toString n).data
  | Json.str s => '"' :: escapeStr s ++ ['"']
  | Json.arr xs => '[' :: dumpsCArr xs ++ [']']
  | Json.obj kvs => lbrace :: dumpsCObj kvs ++ [rbrace]

def dumpsCArr : List Json → List Char
  | [] => []
  | [x] => dumpsC x
  | x :: y :: rest => dumpsC x ++ ", ".data ++ dumpsCArr (y :: rest)

def dumpsCObj : List (List Char × Json) → List Char
  | [] => []
  | [kv] => '"' :: escapeStr kv.1 ++ "\": ".data ++ dumpsC kv.2
  | kv :: kv2 :: rest =>
    '"' :: escapeStr kv.1 ++ "\": ".data ++ dumpsC kv.2
      ++ ", ".data ++ dumpsCObj (kv2 :: rest)

end

mutual

/-- `json.dumps(x, indent=2)` at nesting level `lvl`: items one per
line, two extra spaces of indentation per level, `": "` between key and
value, empty containers printed inline. -/
def dumpsI2 (lvl : Nat) : Json → List Char
  | Json.null => "null".data
  | Json.bool b => if b then "true".data else "false".data
  | Json.num n => (toString n).data
  | Json.str s => '"' :: escapeStr s ++ ['"']
  | Json.arr [] => "[]".data
  | Json.arr (x :: xs) =>
    '[' :: '\n' :: dumpsI2Arr lvl (x :: xs)
      ++ '\n' :: repChar ' ' (2 * lvl) ++ [']']
  | Json.obj [] => lbrace :: [rbrace]
  | Json.obj (kv :: kvs) =>
    lbrace :: '\n' :: dumpsI2Obj lvl (kv :: kvs)
      ++ '\n' :: repChar ' ' (2 * lvl) ++ [rbrace]

def dumpsI2Arr (lvl : Nat) : List Json → List Char
  | [] => []
  | [x] => repChar ' ' (2 * (lvl + 1)) ++ dumpsI2 (lvl + 1) x
  | x :: y :: rest =>
    repChar ' ' (2 * (lvl + 1)) ++ dumpsI2 (lvl + 1) x
      ++ ',' :: '\n' :: dumpsI2Arr lvl (y :: rest)

def dumpsI2Obj (lvl : Nat) : List (List Char × Json) → List Char
  | [] => []
  | [kv] =>
    repChar ' ' (2 * (lvl + 1)) ++ '"' :: escapeStr kv.1
      ++ "\": ".data ++ dumpsI2 (lvl + 1) kv.2
  | kv :: kv2 :: rest =>
    repChar ' ' (2 * (lvl + 1)) ++ '"' :: escapeStr kv.1
      ++ "\": ".data ++ dumpsI2 (lvl + 1) kv.2
      ++ ',' :: '\n' :: dumpsI2Obj lvl (kv2 :: rest)

end

/-- `json.dumps` applied to a `_send_request` return value, which may be
Python `None` (`json.dumps(None)` is `"null"`). -/
def dumpsOpt : Option Json → List Char
  | none => "null".data
  | some j => dumpsC j

/-- `MAX_TOOL_ITERATIONS` (llm_providers.py line 13). -/
def MAX_TOOL_ITERATIONS : Nat := 10

/-- `f"Error: {e!s}"`. -/
def errPre (e : PyErr) : List Char := "Error: ".data ++ e

/-- The iteration-exhaustion return value of the relay loops. -/
def maxIterMsg : List Char := "Error: Maximum tool call iterations exceeded".data

/-- One entry of `message.tool_calls` in an OpenAI chat response:
`tool_call.id`, `tool_call.function.name` and
`tool_call.function.arguments` (raw JSON text). -/
structure OaToolCall where
  id : List Char
  name : List Char
  arguments : List Char

/-- `response.choices[0].message` of an OpenAI chat response.  A `None`
`tool_calls` field and an empty list are both falsy under
`if message.tool_calls:`, so both are the empty list here. -/
structure OaMessage where
  content : Option (List Char)
  tool_calls : List OaToolCall

/-- The `{"role": "assistant", ...}` record appended for a tool call
(llm_providers.py lines 62-77). -/
def oaAssistantRec (tc : OaToolCall) : Json :=
  Json.obj [("role".data, Json.str "assistant".data),
    ("content".data, Json.null),
    ("tool_calls".data, Json.arr [Json.obj [
      ("id".data, Json.str tc.id),
      ("function".data, Json.obj [
        ("name".data, Json.str tc.name),
        ("arguments".data, Json.str tc.arguments)]),
      ("type".data, Json.str "function".data)]])]

/-- The `{"role": "tool", ...}` record appended for a tool result
(llm_providers.py lines 78-84). -/
def oaToolRec (tc : OaToolCall) (result : Option Json) : Json :=
  Json.obj [("role".data, Json.str "tool".data),
    ("tool_call_id".data, Json.str tc.id),
    ("content".data, Json.str (dumpsOpt result))]

/-- State of the inner `for tool_call in message.tool_calls` loop:
an escaping exception (from `json.loads` on the arguments), the message
list so far, and the trace of MCP tool invocations so far. -/
structure PtcState where
  err : Option PyErr
  messages : List Json
  toolTrace : List (List Char × Json)

/-- The inner tool-call loop of `call_openai_chat`: per requested call,
decode the arguments, invoke `call_tool`, and append the assistant
record and the tool-result message.  A decode failure aborts the loop
with the exception (the appends made so far remain in place). -/
def processToolCalls (parse : List Char → Except PyErr Json)
    (callTool : List Char → Json → Option Json) :
    List OaToolCall → List Json → List (List Char × Json) → PtcState
  | [], msgs, tr => ⟨none, msgs, tr⟩
  | tc :: rest, msgs, tr =>
    match parse tc.arguments with
    | .error e => ⟨some e, msgs, tr⟩
    | .ok args =>
      processToolCalls parse callTool rest
        (msgs ++ [oaAssistantRec tc, oaToolRec tc (callTool tc.name args)])
        (tr ++ [(tc.name, args)])

/-- Instrumented result of a `call_openai_chat` invocation: the returned
string, the caller's message list at completion (the code appends to the
caller-supplied list in place), the number of backend chat-API
invocations, and the trace of MCP tool calls. -/
structure OaRun where
  result : List Char
  messages : List Json
  backendCalls : Nat
  toolTrace : List (List Char × Json)

/-- The `for _ in range(MAX_TOOL_ITERATIONS)` loop of `call_openai_chat`
(llm_providers.py lines 43-90).  `backend` models
`client.chat.completions.create` returning `choices[0].message`, or
raising.  Exhausting the range returns the fixed exhaustion string. -/
def openaiLoop (backend : List Json → Except PyErr OaMessage)
    (parse : List Char → Except PyErr Json)
    (callTool : List Char → Json → Option Json) :
    Nat → List Json → Nat → List (List Char × Json) → OaRun
  | 0, msgs, calls, tr => ⟨maxIterMsg, msgs, calls, tr⟩
  | fuel + 1, msgs, calls, tr =>
    match backend msgs with
    | .error e => ⟨errPre e, msgs, calls + 1, tr⟩
    | .ok message =>
      if message.tool_calls.isEmpty then
        ⟨pyOrStr message.content "No response".data, msgs, calls + 1, tr⟩
      else
        match processToolCalls parse callTool message.tool_calls msgs tr with
        | ⟨some e, msgs', tr'⟩ => ⟨errPre e, msgs', calls + 1, tr'⟩
        | ⟨none, msgs', tr'⟩ =>
          openaiLoop backend parse callTool fuel msgs' (calls + 1) tr'

/-- `call_openai_chat` (llm_providers.py lines 19-92).  `sdkInit` models
`import openai` plus `openai.OpenAI(api_key=...)`, which can raise; any
exception anywhere in the body is returned as `"Error: {e!s}"`. -/
def call_openai_chat (sdkInit : Except PyErr Unit)
    (backend : List Json → Except PyErr OaMessage)
    (parse : List Char → Except PyErr Json)
    (callTool : List Char → Json → Option Json)
    (messages : List Json) : OaRun :=
  match sdkInit with
  | .error e => ⟨errPre e, messages, 0, []⟩
  | .ok _ => openaiLoop backend parse callTool MAX_TOOL_ITERATIONS messages 0 []

/-- A content block of an Anthropic response: a text block or a
`tool_use` block (`content.id`, `content.name`, `content.input`). -/
inductive ABlock where
  | text (t : List Char) : ABlock
  | toolUse (tuId : List Char) (name : List Char) (input : Json) : ABlock

/-- An Anthropic `client.messages.create` response: `stop_reason` and
the `content` block list. -/
structure AnResponse where
  stop_reason : List Char
  content : List ABlock

/-- The content of one entry of the internal `anthropic_messages` list:
a converted caller value, the SDK block list of a response (appended as
`{"role": "assistant", "content": response.content}`), or a
`tool_result` block. -/
inductive AContent where
  | json (j : Json) : AContent
  | blocks (bs : List ABlock) : AContent
  | toolResultBlock (tuId : List Char) (resultDump : List Char) : AContent

/-- One entry of the `anthropic_messages` list. -/
structure AMsg where
  role : Json
  content : AContent

/-- The message conversion of `call_anthropic_chat` (llm_providers.py
lines 120-124): skip entries whose `"role"` is `"system"`, keep
`{"role": msg["role"], "content": msg["content"]}` for the rest.  The
bare indexing can raise `KeyError`/`TypeError`, which the enclosing
`try` turns into an error string. -/
def convertMessages : List Json → Except PyErr (List AMsg)
  | [] => .ok []
  | m :: rest =>
    match m with
    | Json.obj kvs =>
      if hasKey "role".data kvs then
        if jsonEqStr (lookupKey "role".data kvs) "system".data then
          convertMessages rest
        else
          if hasKey "content".data kvs then
            match convertMessages rest with
            | .error e => .error e
            | .ok restC =>
              .ok (⟨lookupKey "role".data kvs,
                .json (lookupKey "content".data kvs)⟩ :: restC)
          else .error "KeyError: content".data
      else .error "KeyError: role".data
    | _ => .error "object is not subscriptable".data

/-- The inner `for content in response.content` loop of
`call_anthropic_chat`: for each `tool_use` block, invoke the tool and
append (a) the assistant message holding the full response content and
(b) a `user` message holding the `tool_result` block. -/
def processABlocks (callTool : List Char → Json → Option Json)
    (respContent : List ABlock) :
    List ABlock → List AMsg → List (List Char × Json)
      → List AMsg × List (List Char × Json)
  | [], msgs, tr => (msgs, tr)
  | ABlock.text _ :: rest, msgs, tr =>
    processABlocks callTool respContent rest msgs tr
  | ABlock.toolUse tuId name input :: rest, msgs, tr =>
    processABlocks callTool respContent rest
      (msgs ++ [⟨Json.str "assistant".data, .blocks respContent⟩,
        ⟨Json.str "user".data,
          .toolResultBlock tuId (dumpsOpt (callTool name input))⟩])
      (tr ++ [(name, input)])

/-- Instrumented result of a `call_anthropic_chat` invocation: the
returned string, the caller's message list at completion (this variant
never mutates it), the number of backend invocations, the exact message
lists handed to the backend, and the trace of MCP tool calls. -/
structure AnRun where
  result : List Char
  callerMessages : List Json
  backendCalls : Nat
  sent : List (List AMsg)
  toolTrace : List (List Char × Json)

/-- The iteration loop of `call_anthropic_chat` (llm_providers.py lines
126-165).  A final response's text is `response.content[0].text`; a
leading `tool_use` block there has no `.text` and raises
`AttributeError`, and an empty content list yields `"No response"`. -/
def anthropicLoop (backend : List AMsg → Except PyErr AnResponse)
    (callTool : List Char → Json → Option Json)
    (callerMsgs : List Json) :
    Nat → List AMsg → Nat → List (List AMsg) → List (List Char × Json) → AnRun
  | 0, _, calls, sent, tr => ⟨maxIterMsg, callerMsgs, calls, sent, tr⟩
  | fuel + 1, amsgs, calls, sent, tr =>
    match backend amsgs with
    | .error e => ⟨errPre e, callerMsgs, calls + 1, sent ++ [amsgs], tr⟩
    | .ok resp =>
      if resp.stop_reason = "tool_use".data then
        match processABlocks callTool resp.content resp.content amsgs tr with
        | (amsgs', tr') =>
          anthropicLoop backend callTool callerMsgs fuel amsgs' (calls + 1)
            (sent ++ [amsgs]) tr'
      else
        match resp.content with
        | [] => ⟨"No response".data, callerMsgs, calls + 1, sent ++ [amsgs], tr⟩
        | ABlock.text t :: _ => ⟨t, callerMsgs, calls + 1, sent ++ [amsgs], tr⟩
        | ABlock.toolUse _ _ _ :: _ =>
          ⟨errPre "object has no attribute text".data, callerMsgs,
            calls + 1, sent ++ [amsgs], tr⟩

/-- `call_anthropic_chat` (llm_providers.py lines 95-167). -/
def call_anthropic_chat (sdkInit : Except PyErr Unit)
    (backend : List AMsg → Except PyErr AnResponse)
    (callTool : List Char → Json → Option Json)
    (messages : List Json) : AnRun :=
  match sdkInit with
  | .error e => ⟨errPre e, messages, 0, [], []⟩
  | .ok _ =>
    match convertMessages messages with
    | .error e => ⟨errPre e, messages, 0, [], []⟩
    | .ok amsgs =>
      anthropicLoop backend callTool messages MAX_TOOL_ITERATIONS amsgs 0 [] []

/-- Python `str(x)` for a decoded JSON value, used by the Gemini
f-string.  In the application the interpolated values are strings; the
container cases reuse the JSON rendering, standing in for CPython's
`repr`-based rendering, which no verified claim depends on. -/
def pyStr : Json → List Char
  | Json.str s => s
  | Json.num n => (toString n).data
  | Json.bool b => if b then "True".data else "False".data
  | Json.null => "None".data
  | v => dumpsC v

/-- `sep.join(pieces)`. -/
def joinSep (sep : List Char) : List (List Char) → List Char
  | [] => []
  | [x] => x
  | x :: y :: rest => x ++ sep ++ joinSep sep (y :: rest)

/-- The Gemini prompt pieces
(`[f"{msg['role']}: {msg['content']}" for msg in messages if
msg.get("content")]`, llm_providers.py lines 197-199). -/
def geminiPieces : List Json → Except PyErr (List (List Char))
  | [] => .ok []
  | m :: rest =>
    match m with
    | Json.obj kvs =>
      if pyTruthy (if hasKey "content".data kvs
          then lookupKey "content".data kvs else Json.null) then
        if hasKey "role".data kvs then
          match geminiPieces rest with
          | .error e => .error e
          | .ok ps =>
            .ok ((pyStr (lookupKey "role".data kvs) ++ ": ".data
              ++ pyStr (lookupKey "content".data kvs)) :: ps)
        else .error "KeyError: role".data
      else geminiPieces rest
    | _ => .error "object has no attribute get".data

/-- `call_gemini_chat` (llm_providers.py lines 170-204): single shot, no
tool loop.  `generate` models `model_instance.generate_content(prompt)`
followed by `.text`. -/
def call_gemini_chat (sdkInit : Except PyErr Unit)
    (generate : List Char → Except PyErr (List Char))
    (messages : List Json) : List Char :=
  match sdkInit with
  | .error e => errPre e
  | .ok _ =>
    match geminiPieces messages with
    | .error e => errPre e
    | .ok pieces =>
      match generate (joinSep "\n\n".data pieces) with
      | .error e => errPre e
      | .ok text => text

/-- A streamed HuggingFace chunk: `message.choices`, each with
`delta.content`. -/
structure HfChoice where
  content : Option (List Char)

structure HfChunk where
  choices : List HfChoice

/-- `DEFAULT_HUGGINGFACE_MODEL` (llm_providers.py line 16). -/
def DEFAULT_HUGGINGFACE_MODEL : List Char :=
  "meta-llama/Llama-3.2-3B-Instruct".data

/-- The filtered `chat_messages` of `call_huggingface_chat`
(llm_providers.py lines 236-239). -/
def hfMessages : List Json → Except PyErr (List Json)
  | [] => .ok []
  | m :: rest =>
    match m with
    | Json.obj kvs =>
      if pyTruthy (if hasKey "content".data kvs
          then lookupKey "content".data kvs else Json.null) then
        if hasKey "role".data kvs then
          match hfMessages rest with
          | .error e => .error e
          | .ok ms =>
            .ok (Json.obj [("role".data, lookupKey "role".data kvs),
              ("content".data, lookupKey "content".data kvs)] :: ms)
        else .error "KeyError: role".data
      else hfMessages rest
    | _ => .error "object has no attribute get".data

/-- The accumulation loop over streamed chunks (llm_providers.py lines
242-250): concatenate `delta.content` of the first choice of every
chunk that has a truthy choice list and truthy content. -/
def accumChunks : List HfChunk → List Char
  | [] => []
  | ch :: rest =>
    (match ch.choices with
     | [] => []
     | c :: _ =>
       match c.content with
       | none => []
       | some s => s) ++ accumChunks rest

/-- `call_huggingface_chat` (llm_providers.py lines 207-254): streaming
single shot.  `stream` models `client.chat_completion(...)`; the token
fallback only parameterizes the client and has no observable effect
here. -/
def call_huggingface_chat (sdkInit : Except PyErr Unit)
    (stream : List Json → List Char → Except PyErr (List HfChunk))
    (messages : List Json) (model : List Char) : List Char :=
  match sdkInit with
  | .error e => errPre e
  | .ok _ =>
    match hfMessages messages with
    | .error e => errPre e
    | .ok chat =>
      match stream chat
          (if model.isEmpty then DEFAULT_HUGGINGFACE_MODEL else model) with
      | .error e => errPre e
      | .ok chunks =>
        let response := accumChunks chunks
        if response.isEmpty then "No response".data else response

/-- Python `value[0]` (`contents[0]` in `read_resource`). -/
def pyFirst : Json → Except PyErr Json
  | Json.arr (x :: _) => .ok x
  | Json.arr [] => .error "list index out of range".data
  | Json.str (c :: _) => .ok (Json.str [c])
  | Json.str [] => .error "string index out of range".data
  | _ => .error "object is not subscriptable".data

/-- Python `len(value)`. -/
def pyLen : Json → Except PyErr Nat
  | Json.arr xs => .ok xs.length
  | Json.str s => .ok s.length
  | Json.obj kvs => .ok kvs.length
  | _ => .error "object has no len".data

/-- The result formatting of `read_resource` (tabs/resources.py lines
163-180), applied to the value `mcp_client.read_resource(uri)` returned.
The returned `Json` is the Python object handed to the UI (normally a
string); `.error` models an exception escaping the handler (nothing in
it catches `TypeError`/`AttributeError`). -/
def formatReadResult (parse : List Char → Except PyErr Json)
    (result : Option Json) : Except PyErr Json :=
  match result with
  | none => .error "argument of type NoneType is not iterable".data
  | some result =>
    match pyContainsStr "contents".data result with
    | .error e => .error e
    | .ok false => .ok (Json.str (dumpsI2 0 result))
    | .ok true =>
      match pyIndexStr "contents".data result with
      | .error e => .error e
      | .ok contents =>
        match pyLen contents with
        | .error e => .error e
        | .ok n =>
          if n = 1 then
            match pyFirst contents with
            | .error e => .error e
            | .ok content =>
              match pyDictGet "mimeType".data Json.null content with
              | .error e => .error e
              | .ok mime =>
                match pyContainsStr "text".data content with
                | .error e => .error e
                | .ok hasText =>
                  if jsonEqStr mime "application/json".data ∧ hasText then
                    match pyIndexStr "text".data content with
                    | .error e => .error e
                    | .ok (Json.str s) =>
                      match parse s with
                      | .error _ => .ok (Json.str s)
                      | .ok parsed => .ok (Json.str (dumpsI2 0 parsed))
                    | .ok _ => .error "the JSON object must be str".data
                  else
                    match pyDictGet "text".data
                        (Json.str (dumpsI2 0 content)) content with
                    | .error e => .error e
                    | .ok v => .ok v
          else .ok (Json.str (dumpsI2 0 contents))

/-- `read_resource` (tabs/resources.py lines 158-180): the empty-URI
guard, then the MCP read (its outcome supplied here as `outcome`), then
the formatter. -/
def read_resource (parse : List Char → Except PyErr Json)
    (outcome : Option Json) (uri : List Char) : Except PyErr Json :=
  if uri.isEmpty then
    .ok (Json.str (dumpsI2 0 (Json.obj [("error".data,
      Json.str "Please enter a resource URI".data)])))
  else formatReadResult parse outcome


/-- A decoder stand-in for closed evaluations whose input never reaches
the decoder (the failing bodies are rejected before any `json.loads`). -/
def parseUnused : List Char → Except PyErr Json :=
  fun _ => .error "not reached".data

/-- A decoder returning the envelope `{"result": {"error": 0}}`, whose
`result` value is itself an error-shaped mapping. -/
def parseEnvOverlap : List Char → Except PyErr Json :=
  fun _ => .ok (Json.obj [("result".data,
    Json.obj [("error".data, Json.num 0)])])

/-- An always-tool-requesting OpenAI backend for the C3 witness. -/
def oaAlwaysTool : List Json → Except PyErr OaMessage :=
  fun _ => .ok ⟨none, [⟨"c1".data, "EvaluateCsharp".data, "1".data⟩]⟩

/-- An always-tool-requesting Anthropic backend for the C3 witness. -/
def anAlwaysTool : List AMsg → Except PyErr AnResponse :=
  fun _ => .ok ⟨"tool_use".data,
    [ABlock.toolUse "t1".data "EvaluateCsharp".data (Json.obj [])]⟩

/-- The single caller message of the C8 counterexample run. -/
def c8UserMsg : Json :=
  Json.obj [("role".data, Json.str "user".data),
    ("content".data, Json.str "hi".data)]

/-- A backend that requests one tool call on the first invocation and
answers `done` on the second. -/
def anBackendCEx : List AMsg → Except PyErr AnResponse := fun amsgs =>
  if amsgs.length ≤ 1 then
    .ok ⟨"tool_use".data,
      [ABlock.toolUse "t1".data "EvaluateCsharp".data (Json.obj [])]⟩
  else .ok ⟨"end_turn".data, [ABlock.text "done".data]⟩

/-- No entry of an internal Anthropic message list has role `"system"`. -/
def noSystemRole (l : List AMsg) : Prop :=
  ∀ m ∈ l, jsonEqStr m.role "system".data = false

/-- The system-plus-user transcript of the C10 witness. -/
def c10SysMsg : Json :=
  Json.obj [("role".data, Json.str "system".data),
    ("content".data, Json.str "be nice".data)]

/-- The converted entry the C10 witness backend receives. -/
def c10UserAMsg : AMsg :=
  ⟨Json.str "user".data, AContent.json (Json.str "hi".data)⟩

/-- The Python string `{"k":1}` (the `text` field of the C9 resource
contents entry). -/
def rawKText : List Char :=
  [lbrace, '"', 'k', '"', ':', '1', rbrace]

/-- The `read_resource` outcome of the C9 scenario: one contents entry
with mime type `application/json` whose `text` is `{"k":1}`. -/
def c9Outcome : Option Json :=
  some (Json.obj [("contents".data, Json.arr [Json.obj [
    ("mimeType".data, Json.str "application/json".data),
    ("text".data, Json.str rawKText)]])])

-- ===================== Theorems =====================

lemma stripLeft_cons_of_not_ws {c : Char} {rest : List Char}
    (h : pyIsWS c = false) : stripLeft (c :: rest) = c :: rest := by
  simp [stripLeft, h]

lemma stripLeft_cons_of_ws {c : Char} {rest : List Char}
    (h : pyIsWS c = true) : stripLeft (c :: rest) = stripLeft rest := by
  simp [stripLeft, h]

lemma stripRight_append_nn (l : List Char) :
    stripRight (l ++ "\n\n".data) = stripRight l := by
  unfold stripRight
  rw [List.reverse_append]
  show (stripLeft ('\n' :: '\n' :: l.reverse)).reverse = _
  rw [stripLeft_cons_of_ws (by decide), stripLeft_cons_of_ws (by decide)]

lemma stripRight_eq_self_of_last {l : List Char} {c : Char} {t : List Char}
    (h : l.reverse = c :: t) (hc : pyIsWS c = false) : stripRight l = l := by
  unfold stripRight
  rw [h, stripLeft_cons_of_not_ws hc, ← h, List.reverse_reverse]

lemma splitNl_no_nl {l : List Char} (h : '\n' ∉ l) : splitNl l = [l] := by
  induction l with
  | nil => rfl
  | cons c rest ih =>
    have hc : ¬(c = '\n') := fun e => h (e ▸ List.mem_cons_self c rest)
    have hr : '\n' ∉ rest := fun m => h (List.mem_cons_of_mem c m)
    unfold splitNl
    rw [if_neg hc, ih hr]

lemma splitNl_append_nl {l₁ : List Char} (l₂ : List Char) (h : '\n' ∉ l₁) :
    splitNl (l₁ ++ '\n' :: l₂) = l₁ :: splitNl l₂ := by
  induction l₁ with
  | nil => simp [splitNl]
  | cons c rest ih =>
    have hc : ¬(c = '\n') := fun e => h (e ▸ List.mem_cons_self c rest)
    have hr : '\n' ∉ rest := fun m => h (List.mem_cons_of_mem c m)
    show splitNl (c :: (rest ++ '\n' :: l₂)) = _
    rw [splitNl, if_neg hc, ih hr]

lemma pyStartsWith_self (p : List Char) : pyStartsWith p p = true := by
  induction p with
  | nil => rfl
  | cons c rest ih => simp [pyStartsWith, ih]

lemma pyStartsWith_append_left {p l : List Char} (t : List Char)
    (h : pyStartsWith p l = true) : pyStartsWith p (l ++ t) = true := by
  induction p generalizing l with
  | nil => rfl
  | cons a ps ih =>
    cases l with
    | nil => exact absurd h (by simp [pyStartsWith])
    | cons b bs =>
      simp only [pyStartsWith, Bool.and_eq_true] at h
      show pyStartsWith (a :: ps) (b :: (bs ++ t)) = true
      simp only [pyStartsWith, Bool.and_eq_true]
      exact ⟨h.1, ih h.2⟩

/-- Under the side conditions of a compact JSON serialization (nonempty,
no raw newline, no trailing whitespace), the SSE branch of
`_send_request` recovers exactly the wrapped payload string. -/
lemma extract_sseWrap {s : List Char} {c : Char} {t : List Char}
    (hs : s.reverse = c :: t) (hlast : pyIsWS c = false)
    (hnl : '\n' ∉ s) :
    findDataLine (splitNl (pyStrip (sseWrap s))) = some s := by
  have hA : ("event: message\ndata: ".data ++ s).reverse
      = c :: (t ++ ("event: message\ndata: ".data).reverse) := by
    rw [List.reverse_append, hs]; rfl
  have hstripR : stripRight (sseWrap s) = "event: message\ndata: ".data ++ s := by
    show stripRight (("event: message\ndata: ".data ++ s) ++ "\n\n".data) = _
    rw [stripRight_append_nn, stripRight_eq_self_of_last hA hlast]
  have hstrip : pyStrip (sseWrap s) = "event: message\ndata: ".data ++ s := by
    unfold pyStrip
    rw [hstripR]
    show stripLeft ('e' :: ("vent: message\ndata: ".data ++ s)) = _
    exact stripLeft_cons_of_not_ws (by decide)
  rw [hstrip]
  have hsplitarg : "event: message\ndata: ".data ++ s
      = "event: message".data ++ '\n' :: ("data: ".data ++ s) := rfl
  rw [hsplitarg, splitNl_append_nl _ (by decide),
    splitNl_no_nl (l := "data: ".data ++ s) ?nonl]
  case nonl =>
    intro m
    rcases List.mem_append.mp m with m1 | m2
    · exact absurd m1 (by decide)
    · exact hnl m2
  show findDataLine ["event: message".data, "data: ".data ++ s] = some s
  have hpos : pyStartsWith "data: ".data ("data: ".data ++ s) = true :=
    pyStartsWith_append_left s (pyStartsWith_self "data: ".data)
  simp only [findDataLine]
  rw [if_neg (by decide), if_pos hpos]
  show some (("data: ".data ++ s).drop 6) = some s
  rfl

/-- C2: the claim says `_send_request` always yields a Success or a
Failure and never anything else, but on a 2xx SSE-framed body with no
`data: ` line the Python function falls off the end of the `if` branch
and implicitly returns `None` — neither outcome shape, contradicting
its own `-> dict[str, Any]` return type hint.  This evaluates the
embedding at that failing input. -/
theorem c2_send_none_on_sse_without_data :
    sendRequest parseUnused (.response 200 "event: message\n\n".data) = none := by
  rfl

/-- C1: the claim says the three listing wrappers never raise, but on
the same failing input `_send_request` returns `None` and each wrapper
then evaluates `"error" in None`, which raises a `TypeError` that
nothing catches.  This evaluates all three wrappers at that input; the
`.error` value models the escaping exception. -/
theorem c1_listings_raise_on_sse_without_data :
    list_tools parseUnused (.response 200 "event: message\n\n".data)
        = .error "argument of type NoneType is not iterable".data
    ∧ list_resources parseUnused (.response 200 "event: message\n\n".data)
        = .error "argument of type NoneType is not iterable".data
    ∧ list_prompts parseUnused (.response 200 "event: message\n\n".data)
        = .error "argument of type NoneType is not iterable".data :=
  ⟨rfl, rfl, rfl⟩

/-- C4: for every decoder and every payload string with the shape of a
compact JSON serialization (nonempty, no raw newline so it fits on one
SSE `data:` line, no trailing whitespace, and not beginning with
`event:`), `_send_request` on the plain body and on the same payload
wrapped in the SSE frame `event: message\ndata: <json>\n\n` produce the
same outcome: the two decode paths are extensionally equal. -/
theorem c4_sse_plain_equiv (parse : List Char → Except PyErr Json)
    (s : List Char) (hne : s ≠ [])
    (hlast : pyIsWS (s.reverse.headD 'x') = false)
    (hnl : '\n' ∉ s)
    (hev : pyStartsWith "event:".data s = false) :
    sendRequest parse (.response 200 (sseWrap s))
      = sendRequest parse (.response 200 s) := by
  obtain ⟨c, t, hs⟩ : ∃ c t, s.reverse = c :: t := by
    cases hrev : s.reverse with
    | nil => exact absurd (List.reverse_eq_nil_iff.mp hrev) hne
    | cons c t => exact ⟨c, t, rfl⟩
  have hlast' : pyIsWS c = false := by rw [hs] at hlast; exact hlast
  have hx : findDataLine (splitNl (pyStrip (sseWrap s))) = some s :=
    extract_sseWrap hs hlast' hnl
  have hwrapev : pyStartsWith "event:".data (sseWrap s) = true := by
    show pyStartsWith "event:".data
      (("event: message\ndata: ".data ++ s) ++ "\n\n".data) = true
    exact pyStartsWith_append_left _ (pyStartsWith_append_left _ (by decide))
  have h2xx : ¬((200 : Nat) < 200 ∨ 300 ≤ 200) := by decide
  simp only [sendRequest]
  rw [if_neg h2xx, if_neg h2xx, if_pos hwrapev, hx,
    if_neg (show ¬(pyStartsWith "event:".data s = true) by simp [hev])]

/-- Witness for C4 at the payload `[1]` and a constant decoder. -/
theorem c4_sse_plain_equiv_witness :
    ('\n' ∉ "[1]".data)
    ∧ sendRequest (fun _ => .ok Json.null) (.response 200 (sseWrap "[1]".data))
        = sendRequest (fun _ => .ok Json.null) (.response 200 "[1]".data) :=
  ⟨by decide,
   c4_sse_plain_equiv (fun _ => .ok Json.null) "[1]".data
     (by decide) (by decide) (by decide) (by decide)⟩

/-- C5 counterexample: for the successfully decoded envelope
`{"result": {"error": 0}}` — a `result` key and no `error` key — the
claim demands a Success carrying `{"error": 0}`; but `_send_request`
returns that mapping bare, every call site classifies it by testing
`"error" in result`, and so the outcome is a Failure with payload `0`,
not a Success. -/
theorem c5_result_error_overlap_counterexample :
    sendRequest parseEnvOverlap (.response 200 "x".data)
        = some (Json.obj [("error".data, Json.num 0)])
    ∧ classify (Json.obj [("error".data, Json.num 0)])
        = .failure (Json.num 0)
    ∧ ∀ v, RpcOutcome.failure (Json.num 0) ≠ RpcOutcome.success v :=
  ⟨rfl, rfl, fun _ h => RpcOutcome.noConfusion h⟩

/-- C5 (amended): for every successfully decoded envelope object — if it
has an `error` key the outcome is a Failure carrying that payload and
never a Success; if it has a `result` key and no `error` key the value
of `result` is returned verbatim, and it counts as a Success exactly
when it is not itself a mapping with an `error` key (otherwise it is
indistinguishable from, and classified as, a Failure); with neither key
the outcome is a Success carrying an empty mapping. -/
theorem c5_envelope_unwrap_amended (parse : List Char → Except PyErr Json)
    (body : List Char) (kvs : List (List Char × Json))
    (hev : pyStartsWith "event:".data body = false)
    (hp : parse body = .ok (Json.obj kvs)) :
    (hasKey "error".data kvs = true →
      sendRequest parse (.response 200 body)
          = some (Json.obj [("error".data, lookupKey "error".data kvs)])
      ∧ classify (Json.obj [("error".data, lookupKey "error".data kvs)])
          = .failure (lookupKey "error".data kvs))
    ∧ (hasKey "error".data kvs = false → hasKey "result".data kvs = true →
      sendRequest parse (.response 200 body)
          = some (lookupKey "result".data kvs)
      ∧ (isErrObj (lookupKey "result".data kvs) = false →
          classify (lookupKey "result".data kvs)
            = .success (lookupKey "result".data kvs))
      ∧ (isErrObj (lookupKey "result".data kvs) = true →
          classify (lookupKey "result".data kvs)
            = .failure (errPayload (lookupKey "result".data kvs))))
    ∧ (hasKey "error".data kvs = false → hasKey "result".data kvs = false →
      sendRequest parse (.response 200 body) = some (Json.obj [])
      ∧ classify (Json.obj []) = .success (Json.obj [])) := by
  have h2xx : ¬((200 : Nat) < 200 ∨ 300 ≤ 200) := by decide
  have hsend : sendRequest parse (.response 200 body)
      = some (unwrapEnvelope (Json.obj kvs)) := by
    simp only [sendRequest]
    rw [if_neg h2xx,
      if_neg (show ¬(pyStartsWith "event:".data body = true) by simp [hev]),
      hp]
  refine ⟨fun he => ?_, fun he hr => ?_, fun he hr => ?_⟩
  · have hu : unwrapEnvelope (Json.obj kvs)
        = Json.obj [("error".data, lookupKey "error".data kvs)] := by
      simp only [unwrapEnvelope, pyContainsStr, pyIndexStr, he]
    refine ⟨by rw [hsend, hu], ?_⟩
    show classify (Json.obj [("error".data, lookupKey "error".data kvs)]) = _
    unfold classify isErrObj errPayload
    rw [if_pos (by simp [hasKey])]
    simp [lookupKey]
  · have hu : unwrapEnvelope (Json.obj kvs) = lookupKey "result".data kvs := by
      simp only [unwrapEnvelope, pyContainsStr, pyDictGet, he]
      rw [if_pos hr]
    refine ⟨by rw [hsend, hu], fun hi => ?_, fun hi => ?_⟩
    · unfold classify; rw [hi]; rfl
    · unfold classify; rw [hi]; rfl
  · have hu : unwrapEnvelope (Json.obj kvs) = Json.obj [] := by
      simp only [unwrapEnvelope, pyContainsStr, pyDictGet, he]
      rw [if_neg (by simp [hr])]
    exact ⟨by rw [hsend, hu], rfl⟩

/-- Witness for C5 (amended) at the envelope `{"result": 7}`. -/
theorem c5_envelope_unwrap_amended_witness :
    sendRequest (fun _ => .ok (Json.obj [("result".data, Json.num 7)]))
        (.response 200 "y".data) = some (Json.num 7) := by
  have h := c5_envelope_unwrap_amended
    (fun _ => .ok (Json.obj [("result".data, Json.num 7)]))
    "y".data [("result".data, Json.num 7)] (by decide) rfl
  exact (h.2.1 (by decide) (by decide)).1

lemma openaiLoop_succ_err {backend : List Json → Except PyErr OaMessage}
    {parse : List Char → Except PyErr Json}
    {callTool : List Char → Json → Option Json}
    {msgs : List Json} {e : PyErr} (n : Nat) (calls : Nat)
    (tr : List (List Char × Json)) (hb : backend msgs = .error e) :
    openaiLoop backend parse callTool (n + 1) msgs calls tr
      = ⟨errPre e, msgs, calls + 1, tr⟩ := by
  unfold openaiLoop; rw [hb]

lemma openaiLoop_succ_plain {backend : List Json → Except PyErr OaMessage}
    {parse : List Char → Except PyErr Json}
    {callTool : List Char → Json → Option Json}
    {msgs : List Json} {m : OaMessage} (n : Nat) (calls : Nat)
    (tr : List (List Char × Json)) (hb : backend msgs = .ok m)
    (hm : m.tool_calls.isEmpty = true) :
    openaiLoop backend parse callTool (n + 1) msgs calls tr
      = ⟨pyOrStr m.content "No response".data, msgs, calls + 1, tr⟩ := by
  unfold openaiLoop
  rw [hb]
  dsimp only
  rw [if_pos hm]

lemma openaiLoop_succ_toolerr {backend : List Json → Except PyErr OaMessage}
    {parse : List Char → Except PyErr Json}
    {callTool : List Char → Json → Option Json}
    {msgs msgs' : List Json} {m : OaMessage} {e : PyErr} (n : Nat) (calls : Nat)
    (tr tr' : List (List Char × Json)) (hb : backend msgs = .ok m)
    (hm : m.tool_calls.isEmpty = false)
    (hp : processToolCalls parse callTool m.tool_calls msgs tr
      = ⟨some e, msgs', tr'⟩) :
    openaiLoop backend parse callTool (n + 1) msgs calls tr
      = ⟨errPre e, msgs', calls + 1, tr'⟩ := by
  unfold openaiLoop
  rw [hb]
  dsimp only
  rw [if_neg (by simp [hm]), hp]

lemma openaiLoop_succ_tools {backend : List Json → Except PyErr OaMessage}
    {parse : List Char → Except PyErr Json}
    {callTool : List Char → Json → Option Json}
    {msgs msgs' : List Json} {m : OaMessage} (n : Nat) (calls : Nat)
    (tr tr' : List (List Char × Json)) (hb : backend msgs = .ok m)
    (hm : m.tool_calls.isEmpty = false)
    (hp : processToolCalls parse callTool m.tool_calls msgs tr
      = ⟨none, msgs', tr'⟩) :
    openaiLoop backend parse callTool (n + 1) msgs calls tr
      = openaiLoop backend parse callTool n msgs' (calls + 1) tr' := by
  rw [openaiLoop, hb]
  dsimp only
  rw [if_neg (by simp [hm]), hp]

lemma anthropicLoop_succ_err {backend : List AMsg → Except PyErr AnResponse}
    {callTool : List Char → Json → Option Json} {callerMsgs : List Json}
    {amsgs : List AMsg} {e : PyErr} (n : Nat) (calls : Nat)
    (sent : List (List AMsg)) (tr : List (List Char × Json))
    (hb : backend amsgs = .error e) :
    anthropicLoop backend callTool callerMsgs (n + 1) amsgs calls sent tr
      = ⟨errPre e, callerMsgs, calls + 1, sent ++ [amsgs], tr⟩ := by
  unfold anthropicLoop; rw [hb]

lemma anthropicLoop_succ_tool {backend : List AMsg → Except PyErr AnResponse}
    {callTool : List Char → Json → Option Json} {callerMsgs : List Json}
    {amsgs amsgs' : List AMsg} {r : AnResponse} (n : Nat) (calls : Nat)
    (sent : List (List AMsg)) (tr tr' : List (List Char × Json))
    (hb : backend amsgs = .ok r) (hsr : r.stop_reason = "tool_use".data)
    (hp : processABlocks callTool r.content r.content amsgs tr
      = (amsgs', tr')) :
    anthropicLoop backend callTool callerMsgs (n + 1) amsgs calls sent tr
      = anthropicLoop backend callTool callerMsgs n amsgs' (calls + 1)
          (sent ++ [amsgs]) tr' := by
  rw [anthropicLoop, hb]
  dsimp only
  rw [if_pos hsr, hp]

lemma anthropicLoop_succ_final {backend : List AMsg → Except PyErr AnResponse}
    {callTool : List Char → Json → Option Json} {callerMsgs : List Json}
    {amsgs : List AMsg} {r : AnResponse} (n : Nat) (calls : Nat)
    (sent : List (List AMsg)) (tr : List (List Char × Json))
    (hb : backend amsgs = .ok r) (hsr : ¬(r.stop_reason = "tool_use".data)) :
    anthropicLoop backend callTool callerMsgs (n + 1) amsgs calls sent tr
      = ⟨(match r.content with
          | [] => "No response".data
          | ABlock.text t :: _ => t
          | ABlock.toolUse _ _ _ :: _ =>
            errPre "object has no attribute text".data),
         callerMsgs, calls + 1, sent ++ [amsgs], tr⟩ := by
  unfold anthropicLoop
  rw [hb]
  dsimp only
  rw [if_neg hsr]
  cases r.content with
  | nil => rfl
  | cons b rest => cases b with
    | text t => rfl
    | toolUse tuId name input => rfl

lemma openaiLoop_calls_le (backend : List Json → Except PyErr OaMessage)
    (parse : List Char → Except PyErr Json)
    (callTool : List Char → Json → Option Json) :
    ∀ fuel msgs calls tr,
      (openaiLoop backend parse callTool fuel msgs calls tr).backendCalls
        ≤ calls + fuel := by
  intro fuel
  induction fuel with
  | zero => intro msgs calls tr; exact Nat.le_refl _
  | succ n ih =>
    intro msgs calls tr
    cases hb : backend msgs with
    | error e => rw [openaiLoop_succ_err n calls tr hb]; show calls + 1 ≤ _; omega
    | ok m =>
      cases hm : m.tool_calls.isEmpty with
      | true =>
        rw [openaiLoop_succ_plain n calls tr hb hm]
        show calls + 1 ≤ _; omega
      | false =>
        cases hp : processToolCalls parse callTool m.tool_calls msgs tr with
        | mk err msgs' tr' =>
          cases err with
          | some e =>
            rw [openaiLoop_succ_toolerr n calls tr tr' hb hm hp]
            show calls + 1 ≤ _; omega
          | none =>
            rw [openaiLoop_succ_tools n calls tr tr' hb hm hp]
            have := ih msgs' (calls + 1) tr'
            omega

lemma ptc_err_none (parse : List Char → Except PyErr Json)
    (callTool : List Char → Json → Option Json) :
    ∀ tcs msgs tr, (∀ tc ∈ tcs, ∃ a, parse tc.arguments = .ok a) →
      (processToolCalls parse callTool tcs msgs tr).err = none := by
  intro tcs
  induction tcs with
  | nil => intro msgs tr _; rfl
  | cons tc rest ih =>
    intro msgs tr h
    obtain ⟨a, ha⟩ := h tc (List.mem_cons_self tc rest)
    unfold processToolCalls
    rw [ha]
    exact ih _ _ (fun tc' m => h tc' (List.mem_cons_of_mem tc m))

lemma openaiLoop_exhaust (backend : List Json → Except PyErr OaMessage)
    (parse : List Char → Except PyErr Json)
    (callTool : List Char → Json → Option Json)
    (Hb : ∀ msgs, ∃ m, backend msgs = .ok m ∧ m.tool_calls.isEmpty = false
      ∧ ∀ tc ∈ m.tool_calls, ∃ a, parse tc.arguments = .ok a) :
    ∀ fuel msgs calls tr,
      (openaiLoop backend parse callTool fuel msgs calls tr).result = maxIterMsg
      ∧ (openaiLoop backend parse callTool fuel msgs calls tr).backendCalls
          = calls + fuel := by
  intro fuel
  induction fuel with
  | zero => intro msgs calls tr; exact ⟨rfl, rfl⟩
  | succ n ih =>
    intro msgs calls tr
    obtain ⟨m, hbm, hne, hargs⟩ := Hb msgs
    cases hp : processToolCalls parse callTool m.tool_calls msgs tr with
    | mk err msgs' tr' =>
      have herr : err = none := by
        have h2 := ptc_err_none parse callTool m.tool_calls msgs tr hargs
        rw [hp] at h2
        exact h2
      subst herr
      rw [openaiLoop_succ_tools n calls tr tr' hbm hne hp]
      have := ih msgs' (calls + 1) tr'
      exact ⟨this.1, by rw [this.2]; omega⟩

lemma anthropicLoop_calls_le (backend : List AMsg → Except PyErr AnResponse)
    (callTool : List Char → Json → Option Json) (callerMsgs : List Json) :
    ∀ fuel amsgs calls sent tr,
      (anthropicLoop backend callTool callerMsgs fuel amsgs calls sent tr).backendCalls
        ≤ calls + fuel := by
  intro fuel
  induction fuel with
  | zero => intro amsgs calls sent tr; exact Nat.le_refl _
  | succ n ih =>
    intro amsgs calls sent tr
    cases hb : backend amsgs with
    | error e =>
      rw [anthropicLoop_succ_err n calls sent tr hb]
      show calls + 1 ≤ _; omega
    | ok r =>
      by_cases hsr : r.stop_reason = "tool_use".data
      · cases hp : processABlocks callTool r.content r.content amsgs tr with
        | mk amsgs' tr' =>
          rw [anthropicLoop_succ_tool n calls sent tr tr' hb hsr hp]
          have := ih amsgs' (calls + 1) (sent ++ [amsgs]) tr'
          omega
      · rw [anthropicLoop_succ_final n calls sent tr hb hsr]
        show calls + 1 ≤ _; omega

lemma anthropicLoop_exhaust (backend : List AMsg → Except PyErr AnResponse)
    (callTool : List Char → Json → Option Json) (callerMsgs : List Json)
    (Hb : ∀ amsgs, ∃ r, backend amsgs = .ok r
      ∧ r.stop_reason = "tool_use".data) :
    ∀ fuel amsgs calls sent tr,
      (anthropicLoop backend callTool callerMsgs fuel amsgs calls sent tr).result
          = maxIterMsg
      ∧ (anthropicLoop backend callTool callerMsgs fuel amsgs calls sent tr).backendCalls
          = calls + fuel := by
  intro fuel
  induction fuel with
  | zero => intro amsgs calls sent tr; exact ⟨rfl, rfl⟩
  | succ n ih =>
    intro amsgs calls sent tr
    obtain ⟨r, hbr, hsr⟩ := Hb amsgs
    cases hp : processABlocks callTool r.content r.content amsgs tr with
    | mk amsgs' tr' =>
      rw [anthropicLoop_succ_tool n calls sent tr tr' hbr hsr hp]
      have := ih amsgs' (calls + 1) (sent ++ [amsgs]) tr'
      exact ⟨this.1, by rw [this.2]; omega⟩

/-- C3: both tool-loop relay variants invoke the backend chat API at
most `MAX_TOOL_ITERATIONS` (10) times per call, for every backend; and
against a backend that requests a tool call on every response (with
decodable arguments where applicable), each variant performs exactly 10
backend invocations and returns exactly the string
`"Error: Maximum tool call iterations exceeded"`. -/
theorem c3_iteration_cap (sdkO sdkA : Except PyErr Unit)
    (backendO : List Json → Except PyErr OaMessage)
    (backendA : List AMsg → Except PyErr AnResponse)
    (parse : List Char → Except PyErr Json)
    (callTool callToolA : List Char → Json → Option Json)
    (msgsO msgsA : List Json) :
    (call_openai_chat sdkO backendO parse callTool msgsO).backendCalls
        ≤ MAX_TOOL_ITERATIONS
    ∧ (call_anthropic_chat sdkA backendA callToolA msgsA).backendCalls
        ≤ MAX_TOOL_ITERATIONS
    ∧ ((∀ msgs, ∃ m, backendO msgs = .ok m ∧ m.tool_calls.isEmpty = false
          ∧ ∀ tc ∈ m.tool_calls, ∃ a, parse tc.arguments = .ok a) →
        sdkO = .ok () →
        (call_openai_chat sdkO backendO parse callTool msgsO).result
            = "Error: Maximum tool call iterations exceeded".data
        ∧ (call_openai_chat sdkO backendO parse callTool msgsO).backendCalls
            = MAX_TOOL_ITERATIONS)
    ∧ ((∀ amsgs, ∃ r, backendA amsgs = .ok r
          ∧ r.stop_reason = "tool_use".data) →
        sdkA = .ok () → (∃ am0, convertMessages msgsA = .ok am0) →
        (call_anthropic_chat sdkA backendA callToolA msgsA).result
            = "Error: Maximum tool call iterations exceeded".data
        ∧ (call_anthropic_chat sdkA backendA callToolA msgsA).backendCalls
            = MAX_TOOL_ITERATIONS) := by
  refine ⟨?_, ?_, ?_, ?_⟩
  · cases sdkO with
    | error e => exact Nat.zero_le _
    | ok u =>
      exact openaiLoop_calls_le backendO parse callTool MAX_TOOL_ITERATIONS msgsO 0 []
  · cases sdkA with
    | error e => exact Nat.zero_le _
    | ok u =>
      cases hc : convertMessages msgsA with
      | error e => simp [call_anthropic_chat, hc]
      | ok am0 =>
        show (call_anthropic_chat (.ok u) backendA callToolA msgsA).backendCalls ≤ _
        simp only [call_anthropic_chat, hc]
        exact anthropicLoop_calls_le backendA callToolA msgsA MAX_TOOL_ITERATIONS am0 0 [] []
  · intro Hb hs
    subst hs
    exact openaiLoop_exhaust backendO parse callTool Hb MAX_TOOL_ITERATIONS msgsO 0 []
  · intro Hb hs hconv
    subst hs
    obtain ⟨am0, hc⟩ := hconv
    show (call_anthropic_chat (.ok ()) backendA callToolA msgsA).result = _ ∧ _
    simp only [call_anthropic_chat, hc]
    exact anthropicLoop_exhaust backendA callToolA msgsA Hb MAX_TOOL_ITERATIONS am0 0 [] []

/-- Witness for C3: concrete always-tool backends drive both variants to
exactly 10 invocations and the exhaustion string. -/
theorem c3_iteration_cap_witness :
    ((call_openai_chat (.ok ()) oaAlwaysTool (fun _ => .ok (Json.num 1))
        (fun _ _ => none) []).result
      = "Error: Maximum tool call iterations exceeded".data
    ∧ (call_openai_chat (.ok ()) oaAlwaysTool (fun _ => .ok (Json.num 1))
        (fun _ _ => none) []).backendCalls = MAX_TOOL_ITERATIONS)
    ∧ ((call_anthropic_chat (.ok ()) anAlwaysTool (fun _ _ => none) []).result
      = "Error: Maximum tool call iterations exceeded".data
    ∧ (call_anthropic_chat (.ok ()) anAlwaysTool (fun _ _ => none) []).backendCalls
      = MAX_TOOL_ITERATIONS) := by
  have h := c3_iteration_cap (.ok ()) (.ok ()) oaAlwaysTool anAlwaysTool
    (fun _ => .ok (Json.num 1)) (fun _ _ => none) (fun _ _ => none) [] []
  refine ⟨h.2.2.1 ?_ rfl, h.2.2.2 ?_ rfl ⟨[], rfl⟩⟩
  · intro msgs
    exact ⟨⟨none, [⟨"c1".data, "EvaluateCsharp".data, "1".data⟩]⟩, rfl, rfl,
      fun tc _ => ⟨Json.num 1, rfl⟩⟩
  · intro amsgs
    exact ⟨⟨"tool_use".data,
      [ABlock.toolUse "t1".data "EvaluateCsharp".data (Json.obj [])]⟩, rfl, rfl⟩

/-- C7: when the first backend response signals no tool call — a plain
assistant message with nonempty text — each tool-loop relay variant
returns that text unchanged after exactly one backend invocation and
with no `call_tool` invocation. -/
theorem c7_first_plain_response
    (backendO : List Json → Except PyErr OaMessage)
    (parse : List Char → Except PyErr Json)
    (callTool callToolA : List Char → Json → Option Json)
    (msgsO msgsA : List Json) (m : OaMessage) (t : List Char)
    (backendA : List AMsg → Except PyErr AnResponse)
    (am0 : List AMsg) (r : AnResponse) (t2 : List Char) (rest : List ABlock)
    (hbO : backendO msgsO = .ok m) (hnt : m.tool_calls.isEmpty = true)
    (hc : m.content = some t) (hne : t.isEmpty = false)
    (hconv : convertMessages msgsA = .ok am0) (hbA : backendA am0 = .ok r)
    (hsr : ¬(r.stop_reason = "tool_use".data))
    (hct : r.content = ABlock.text t2 :: rest) :
    ((call_openai_chat (.ok ()) backendO parse callTool msgsO).result = t
      ∧ (call_openai_chat (.ok ()) backendO parse callTool msgsO).backendCalls = 1
      ∧ (call_openai_chat (.ok ()) backendO parse callTool msgsO).toolTrace = [])
    ∧ ((call_anthropic_chat (.ok ()) backendA callToolA msgsA).result = t2
      ∧ (call_anthropic_chat (.ok ()) backendA callToolA msgsA).backendCalls = 1
      ∧ (call_anthropic_chat (.ok ()) backendA callToolA msgsA).toolTrace = []) := by
  constructor
  · have e1 : call_openai_chat (.ok ()) backendO parse callTool msgsO
        = openaiLoop backendO parse callTool (9 + 1) msgsO 0 [] := rfl
    rw [e1, openaiLoop_succ_plain 9 0 [] hbO hnt]
    refine ⟨?_, rfl, rfl⟩
    show pyOrStr m.content "No response".data = t
    rw [hc]
    simp [pyOrStr, hne]
  · have e2 : call_anthropic_chat (.ok ()) backendA callToolA msgsA
        = anthropicLoop backendA callToolA msgsA MAX_TOOL_ITERATIONS am0 0 [] [] := by
      simp [call_anthropic_chat, hconv]
    have e3 : anthropicLoop backendA callToolA msgsA MAX_TOOL_ITERATIONS am0 0 [] []
        = anthropicLoop backendA callToolA msgsA (9 + 1) am0 0 [] [] := rfl
    rw [e2, e3, anthropicLoop_succ_final 9 0 [] [] hbA hsr]
    refine ⟨?_, rfl, rfl⟩
    show (match r.content with
      | [] => "No response".data
      | ABlock.text t :: _ => t
      | ABlock.toolUse _ _ _ :: _ =>
        errPre "object has no attribute text".data) = t2
    rw [hct]

/-- Witness for C7: concrete one-shot plain-text backends. -/
theorem c7_first_plain_response_witness :
    ((call_openai_chat (.ok ()) (fun _ => .ok ⟨some "hi".data, []⟩)
        (fun _ => .ok Json.null) (fun _ _ => none) []).result = "hi".data
      ∧ (call_openai_chat (.ok ()) (fun _ => .ok ⟨some "hi".data, []⟩)
        (fun _ => .ok Json.null) (fun _ _ => none) []).backendCalls = 1
      ∧ (call_openai_chat (.ok ()) (fun _ => .ok ⟨some "hi".data, []⟩)
        (fun _ => .ok Json.null) (fun _ _ => none) []).toolTrace = [])
    ∧ ((call_anthropic_chat (.ok ())
        (fun _ => .ok ⟨"end_turn".data, [ABlock.text "ok".data]⟩)
        (fun _ _ => none) []).result = "ok".data
      ∧ (call_anthropic_chat (.ok ())
        (fun _ => .ok ⟨"end_turn".data, [ABlock.text "ok".data]⟩)
        (fun _ _ => none) []).backendCalls = 1
      ∧ (call_anthropic_chat (.ok ())
        (fun _ => .ok ⟨"end_turn".data, [ABlock.text "ok".data]⟩)
        (fun _ _ => none) []).toolTrace = []) :=
  c7_first_plain_response (fun _ => .ok ⟨some "hi".data, []⟩)
    (fun _ => .ok Json.null) (fun _ _ => none) (fun _ _ => none) [] []
    ⟨some "hi".data, []⟩ "hi".data
    (fun _ => .ok ⟨"end_turn".data, [ABlock.text "ok".data]⟩)
    [] ⟨"end_turn".data, [ABlock.text "ok".data]⟩ "ok".data []
    rfl rfl rfl rfl rfl rfl (by decide) rfl

/-- C6: every modelled exception source inside a relay body — a failing
SDK import/construction, a backend chat-API call that raises, and (for
the OpenAI variant) tool-call arguments that fail to JSON-decode — is
caught by each variant and returned as the string `"Error: "` followed
by the exception message; the relays are total functions into strings
and never raise. -/
theorem c6_relay_error_strings (e : PyErr)
    (backendO : List Json → Except PyErr OaMessage)
    (backendA : List AMsg → Except PyErr AnResponse)
    (generate : List Char → Except PyErr (List Char))
    (stream : List Json → List Char → Except PyErr (List HfChunk))
    (parse : List Char → Except PyErr Json)
    (callTool callToolA : List Char → Json → Option Json)
    (msgsO msgsA msgsG msgsH : List Json) (model : List Char) :
    (call_openai_chat (.error e) backendO parse callTool msgsO).result
        = "Error: ".data ++ e
    ∧ (call_anthropic_chat (.error e) backendA callToolA msgsA).result
        = "Error: ".data ++ e
    ∧ call_gemini_chat (.error e) generate msgsG = "Error: ".data ++ e
    ∧ call_huggingface_chat (.error e) stream msgsH model = "Error: ".data ++ e
    ∧ (backendO msgsO = .error e →
        (call_openai_chat (.ok ()) backendO parse callTool msgsO).result
          = "Error: ".data ++ e)
    ∧ (∀ am0, convertMessages msgsA = .ok am0 → backendA am0 = .error e →
        (call_anthropic_chat (.ok ()) backendA callToolA msgsA).result
          = "Error: ".data ++ e)
    ∧ (∀ ps, geminiPieces msgsG = .ok ps →
        generate (joinSep "\n\n".data ps) = .error e →
        call_gemini_chat (.ok ()) generate msgsG = "Error: ".data ++ e)
    ∧ (∀ cm, hfMessages msgsH = .ok cm →
        stream cm (if model.isEmpty then DEFAULT_HUGGINGFACE_MODEL else model)
          = .error e →
        call_huggingface_chat (.ok ()) stream msgsH model = "Error: ".data ++ e)
    ∧ (∀ m tc rest, backendO msgsO = .ok m → m.tool_calls = tc :: rest →
        parse tc.arguments = .error e →
        (call_openai_chat (.ok ()) backendO parse callTool msgsO).result
          = "Error: ".data ++ e) := by
  refine ⟨rfl, rfl, rfl, rfl, ?_, ?_, ?_, ?_, ?_⟩
  · intro hb
    have e1 : call_openai_chat (.ok ()) backendO parse callTool msgsO
        = openaiLoop backendO parse callTool (9 + 1) msgsO 0 [] := rfl
    rw [e1, openaiLoop_succ_err 9 0 [] hb]
    rfl
  · intro am0 hconv hb
    have e2 : call_anthropic_chat (.ok ()) backendA callToolA msgsA
        = anthropicLoop backendA callToolA msgsA MAX_TOOL_ITERATIONS am0 0 [] [] := by
      simp [call_anthropic_chat, hconv]
    have e3 : anthropicLoop backendA callToolA msgsA MAX_TOOL_ITERATIONS am0 0 [] []
        = anthropicLoop backendA callToolA msgsA (9 + 1) am0 0 [] [] := rfl
    rw [e2, e3, anthropicLoop_succ_err 9 0 [] [] hb]
    rfl
  · intro ps hg hgen
    unfold call_gemini_chat
    rw [hg]
    dsimp only
    rw [hgen]
    rfl
  · intro cm hm hstream
    unfold call_huggingface_chat
    rw [hm]
    dsimp only
    rw [hstream]
    rfl
  · intro m tc rest hb hm hp
    have hptc : processToolCalls parse callTool (tc :: rest) msgsO []
        = ⟨some e, msgsO, []⟩ := by
      rw [processToolCalls, hp]
    have e1 : call_openai_chat (.ok ()) backendO parse callTool msgsO
        = openaiLoop backendO parse callTool (9 + 1) msgsO 0 [] := rfl
    rw [e1, openaiLoop_succ_toolerr 9 0 [] [] hb (by rw [hm]; rfl)
      (by rw [hm]; exact hptc)]
    rfl

/-- Witness for C6 at the message `"boom"` and constant raising
backends. -/
theorem c6_relay_error_strings_witness :
    (call_openai_chat (.error "boom".data) (fun _ => .ok ⟨none, []⟩)
        (fun _ => .ok Json.null) (fun _ _ => none) []).result
      = "Error: boom".data
    ∧ (call_openai_chat (.ok ()) (fun _ => .error "boom".data)
        (fun _ => .ok Json.null) (fun _ _ => none) []).result
      = "Error: boom".data := by
  have h := c6_relay_error_strings "boom".data (fun _ => .error "boom".data)
    (fun _ => .ok ⟨"end_turn".data, []⟩) (fun _ => .ok "x".data)
    (fun _ _ => .ok []) (fun _ => .ok Json.null) (fun _ _ => none)
    (fun _ _ => none) [] [] [] [] []
  have h2 := c6_relay_error_strings "boom".data (fun _ => .ok ⟨none, []⟩)
    (fun _ => .ok ⟨"end_turn".data, []⟩) (fun _ => .ok "x".data)
    (fun _ _ => .ok []) (fun _ => .ok Json.null) (fun _ _ => none)
    (fun _ _ => none) [] [] [] [] []
  exact ⟨h2.1, h.2.2.2.2.1 rfl⟩

lemma ptc_cons_err {parse : List Char → Except PyErr Json}
    {callTool : List Char → Json → Option Json}
    {tc : OaToolCall} {e : PyErr} (rest : List OaToolCall)
    (msgs : List Json) (tr : List (List Char × Json))
    (hp : parse tc.arguments = .error e) :
    processToolCalls parse callTool (tc :: rest) msgs tr
      = ⟨some e, msgs, tr⟩ := by
  rw [processToolCalls, hp]

lemma ptc_cons_ok {parse : List Char → Except PyErr Json}
    {callTool : List Char → Json → Option Json}
    {tc : OaToolCall} {a : Json} (rest : List OaToolCall)
    (msgs : List Json) (tr : List (List Char × Json))
    (hp : parse tc.arguments = .ok a) :
    processToolCalls parse callTool (tc :: rest) msgs tr
      = processToolCalls parse callTool rest
          (msgs ++ [oaAssistantRec tc, oaToolRec tc (callTool tc.name a)])
          (tr ++ [(tc.name, a)]) := by
  rw [processToolCalls, hp]

lemma ptc_appends (parse : List Char → Except PyErr Json)
    (callTool : List Char → Json → Option Json) :
    ∀ tcs msgs tr, ∃ tm tt,
      (processToolCalls parse callTool tcs msgs tr).messages = msgs ++ tm
      ∧ (processToolCalls parse callTool tcs msgs tr).toolTrace = tr ++ tt
      ∧ tm.length = 2 * tt.length := by
  intro tcs
  induction tcs with
  | nil =>
    intro msgs tr
    exact ⟨[], [], by simp [processToolCalls], by simp [processToolCalls], rfl⟩
  | cons tc rest ih =>
    intro msgs tr
    cases hp : parse tc.arguments with
    | error e =>
      rw [ptc_cons_err rest msgs tr hp]
      exact ⟨[], [], by simp, by simp, rfl⟩
    | ok a =>
      rw [ptc_cons_ok rest msgs tr hp]
      obtain ⟨tm, tt, h1, h2, h3⟩ := ih
        (msgs ++ [oaAssistantRec tc, oaToolRec tc (callTool tc.name a)])
        (tr ++ [(tc.name, a)])
      refine ⟨[oaAssistantRec tc, oaToolRec tc (callTool tc.name a)] ++ tm,
        [(tc.name, a)] ++ tt, ?_, ?_, ?_⟩
      · rw [h1, List.append_assoc]
      · rw [h2, List.append_assoc]
      · simp only [List.length_append, List.length_cons, List.length_nil]
        omega

lemma openaiLoop_appends (backend : List Json → Except PyErr OaMessage)
    (parse : List Char → Except PyErr Json)
    (callTool : List Char → Json → Option Json) :
    ∀ fuel msgs calls tr, ∃ tm tt,
      (openaiLoop backend parse callTool fuel msgs calls tr).messages
        = msgs ++ tm
      ∧ (openaiLoop backend parse callTool fuel msgs calls tr).toolTrace
        = tr ++ tt
      ∧ tm.length = 2 * tt.length := by
  intro fuel
  induction fuel with
  | zero =>
    intro msgs calls tr
    exact ⟨[], [], by simp [openaiLoop], by simp [openaiLoop], rfl⟩
  | succ n ih =>
    intro msgs calls tr
    cases hb : backend msgs with
    | error e =>
      rw [openaiLoop_succ_err n calls tr hb]
      exact ⟨[], [], by simp, by simp, rfl⟩
    | ok m =>
      cases hm : m.tool_calls.isEmpty with
      | true =>
        rw [openaiLoop_succ_plain n calls tr hb hm]
        exact ⟨[], [], by simp, by simp, rfl⟩
      | false =>
        obtain ⟨tm1, tt1, g1, g2, g3⟩ :=
          ptc_appends parse callTool m.tool_calls msgs tr
        cases hp : processToolCalls parse callTool m.tool_calls msgs tr with
        | mk err msgs' tr' =>
          rw [hp] at g1 g2
          dsimp only at g1 g2
          cases err with
          | some e =>
            rw [openaiLoop_succ_toolerr n calls tr tr' hb hm hp]
            exact ⟨tm1, tt1, g1, g2, g3⟩
          | none =>
            rw [openaiLoop_succ_tools n calls tr tr' hb hm hp]
            obtain ⟨tm2, tt2, k1, k2, k3⟩ := ih msgs' (calls + 1) tr'
            refine ⟨tm1 ++ tm2, tt1 ++ tt2, ?_, ?_, ?_⟩
            · rw [k1, g1, List.append_assoc]
            · rw [k2, g2, List.append_assoc]
            · simp only [List.length_append]
              omega

lemma anthropicLoop_caller (backend : List AMsg → Except PyErr AnResponse)
    (callTool : List Char → Json → Option Json) (callerMsgs : List Json) :
    ∀ fuel amsgs calls sent tr,
      (anthropicLoop backend callTool callerMsgs fuel amsgs calls sent tr).callerMessages
        = callerMsgs := by
  intro fuel
  induction fuel with
  | zero => intro amsgs calls sent tr; rfl
  | succ n ih =>
    intro amsgs calls sent tr
    cases hb : backend amsgs with
    | error e => rw [anthropicLoop_succ_err n calls sent tr hb]
    | ok r =>
      by_cases hsr : r.stop_reason = "tool_use".data
      · cases hp : processABlocks callTool r.content r.content amsgs tr with
        | mk amsgs' tr' =>
          rw [anthropicLoop_succ_tool n calls sent tr tr' hb hsr hp]
          exact ih amsgs' (calls + 1) (sent ++ [amsgs]) tr'
      · rw [anthropicLoop_succ_final n calls sent tr hb hsr]

/-- C8 counterexample: an Anthropic relay invocation that executes
exactly one tool call finishes normally, yet the caller-supplied message
list is returned untouched — none of the appended records reach the
caller's list, because `call_anthropic_chat` appends only to its internal
`anthropic_messages` copy. -/
theorem c8_anthropic_no_caller_mutation_counterexample :
    (call_anthropic_chat (.ok ()) anBackendCEx (fun _ _ => none)
        [c8UserMsg]).toolTrace.length = 1
    ∧ (call_anthropic_chat (.ok ()) anBackendCEx (fun _ _ => none)
        [c8UserMsg]).result = "done".data
    ∧ (call_anthropic_chat (.ok ()) anBackendCEx (fun _ _ => none)
        [c8UserMsg]).callerMessages = [c8UserMsg] :=
  ⟨rfl, rfl, rfl⟩

/-- C8 (amended): only the OpenAI variant mutates the caller-supplied
list in place — its final message list is the initial list plus appended
records (two per executed tool call, so a nonempty tail whenever a tool
ran), observed by the caller at completion, success or error.  The
Anthropic variant appends only to a fresh internal converted list and
returns the caller's list unchanged. -/
theorem c8_caller_list_mutation_amended (sdkO sdkA : Except PyErr Unit)
    (backendO : List Json → Except PyErr OaMessage)
    (backendA : List AMsg → Except PyErr AnResponse)
    (parse : List Char → Except PyErr Json)
    (callTool callToolA : List Char → Json → Option Json)
    (msgsO msgsA : List Json) :
    (∃ tail, (call_openai_chat sdkO backendO parse callTool msgsO).messages
        = msgsO ++ tail
      ∧ tail.length = 2 * (call_openai_chat sdkO backendO parse callTool
          msgsO).toolTrace.length
      ∧ ((call_openai_chat sdkO backendO parse callTool msgsO).toolTrace ≠ []
          → tail ≠ []))
    ∧ (call_anthropic_chat sdkA backendA callToolA msgsA).callerMessages
        = msgsA := by
  constructor
  · cases sdkO with
    | error e =>
      refine ⟨[], by simp [call_openai_chat], by simp [call_openai_chat], ?_⟩
      intro h
      exact absurd rfl h
    | ok u =>
      obtain ⟨tm, tt, h1, h2, h3⟩ :=
        openaiLoop_appends backendO parse callTool MAX_TOOL_ITERATIONS msgsO 0 []
      refine ⟨tm, h1, ?_, ?_⟩
      · show tm.length = 2 * (openaiLoop backendO parse callTool
          MAX_TOOL_ITERATIONS msgsO 0 []).toolTrace.length
        rw [h2]
        simpa using h3
      · intro hne htm
        subst htm
        have : tt = [] := by
          cases tt with
          | nil => rfl
          | cons x xs => simp at h3
        apply hne
        show (openaiLoop backendO parse callTool
          MAX_TOOL_ITERATIONS msgsO 0 []).toolTrace = []
        rw [h2, this]
        rfl
  · cases sdkA with
    | error e => rfl
    | ok u =>
      cases hc : convertMessages msgsA with
      | error e => simp [call_anthropic_chat, hc]
      | ok am0 =>
        show (call_anthropic_chat (.ok u) backendA callToolA msgsA).callerMessages = msgsA
        simp only [call_anthropic_chat, hc]
        exact anthropicLoop_caller backendA callToolA msgsA
          MAX_TOOL_ITERATIONS am0 0 [] []

/-- Witness for C8 (amended): a one-tool-then-answer OpenAI backend
appends exactly two records to the caller's list. -/
theorem c8_caller_list_mutation_amended_witness :
    (∃ tail, (call_openai_chat (.ok ()) (fun msgs =>
        if msgs.length ≤ 1 then
          .ok ⟨none, [⟨"c1".data, "EvaluateCsharp".data, "1".data⟩]⟩
        else .ok ⟨some "done".data, []⟩)
        (fun _ => .ok (Json.num 1)) (fun _ _ => none) [c8UserMsg]).messages
        = [c8UserMsg] ++ tail
      ∧ tail.length = 2 * (call_openai_chat (.ok ()) (fun msgs =>
          if msgs.length ≤ 1 then
            .ok ⟨none, [⟨"c1".data, "EvaluateCsharp".data, "1".data⟩]⟩
          else .ok ⟨some "done".data, []⟩)
          (fun _ => .ok (Json.num 1)) (fun _ _ => none) [c8UserMsg]).toolTrace.length
      ∧ ((call_openai_chat (.ok ()) (fun msgs =>
          if msgs.length ≤ 1 then
            .ok ⟨none, [⟨"c1".data, "EvaluateCsharp".data, "1".data⟩]⟩
          else .ok ⟨some "done".data, []⟩)
          (fun _ => .ok (Json.num 1)) (fun _ _ => none) [c8UserMsg]).toolTrace ≠ []
          → tail ≠ []))
    ∧ (call_anthropic_chat (.ok ()) anBackendCEx (fun _ _ => none)
        [c8UserMsg]).callerMessages = [c8UserMsg] :=
  c8_caller_list_mutation_amended (.ok ()) (.ok ())
    (fun msgs =>
      if msgs.length ≤ 1 then
        .ok ⟨none, [⟨"c1".data, "EvaluateCsharp".data, "1".data⟩]⟩
      else .ok ⟨some "done".data, []⟩)
    anBackendCEx (fun _ => .ok (Json.num 1)) (fun _ _ => none)
    (fun _ _ => none) [c8UserMsg] [c8UserMsg]

lemma convert_no_system : ∀ msgs amsgs,
    convertMessages msgs = .ok amsgs → noSystemRole amsgs := by
  intro msgs
  induction msgs with
  | nil =>
    intro amsgs h
    injection h with h'
    subst h'
    intro m hm
    exact absurd hm (List.not_mem_nil m)
  | cons m rest ih =>
    intro amsgs h
    cases m with
    | obj kvs =>
      rw [convertMessages] at h
      dsimp only at h
      by_cases h1 : hasKey "role".data kvs = true
      · rw [if_pos h1] at h
        by_cases h2 : jsonEqStr (lookupKey "role".data kvs) "system".data = true
        · rw [if_pos h2] at h
          exact ih amsgs h
        · rw [if_neg h2] at h
          by_cases h3 : hasKey "content".data kvs = true
          · rw [if_pos h3] at h
            cases hr : convertMessages rest with
            | error e => rw [hr] at h; cases h
            | ok restC =>
              rw [hr] at h
              dsimp only at h
              injection h with h'
              subst h'
              intro mm hmm
              rcases List.mem_cons.mp hmm with he | ht
              · subst he
                show jsonEqStr (lookupKey "role".data kvs) "system".data = false
                cases hjs : jsonEqStr (lookupKey "role".data kvs) "system".data with
                | true => exact absurd hjs h2
                | false => rfl
              · exact ih restC hr mm ht
          · rw [if_neg h3] at h; cases h
      · rw [if_neg h1] at h; cases h
    | null => simp [convertMessages] at h
    | bool b => simp [convertMessages] at h
    | num n => simp [convertMessages] at h
    | str s => simp [convertMessages] at h
    | arr xs => simp [convertMessages] at h

lemma pab_no_system (callTool : List Char → Json → Option Json)
    (respContent : List ABlock) :
    ∀ blocks amsgs tr, noSystemRole amsgs →
      noSystemRole (processABlocks callTool respContent blocks amsgs tr).1 := by
  intro blocks
  induction blocks with
  | nil => intro amsgs tr h; exact h
  | cons b rest ih =>
    intro amsgs tr h
    cases b with
    | text t => exact ih amsgs tr h
    | toolUse tuId name input =>
      apply ih
      intro mm hmm
      rcases List.mem_append.mp hmm with hl | hr
      · exact h mm hl
      · rcases List.mem_cons.mp hr with he | ht
        · subst he; rfl
        · rcases List.mem_cons.mp ht with he2 | ht2
          · subst he2; rfl
          · exact absurd ht2 (List.not_mem_nil mm)

lemma anthropicLoop_sent_no_system
    (backend : List AMsg → Except PyErr AnResponse)
    (callTool : List Char → Json → Option Json) (callerMsgs : List Json) :
    ∀ fuel amsgs calls sent tr, noSystemRole amsgs →
      (∀ l ∈ sent, noSystemRole l) →
      ∀ l ∈ (anthropicLoop backend callTool callerMsgs fuel amsgs calls
        sent tr).sent, noSystemRole l := by
  intro fuel
  induction fuel with
  | zero => intro amsgs calls sent tr _ hsent; exact hsent
  | succ n ih =>
    intro amsgs calls sent tr hms hsent
    have hsent' : ∀ l ∈ sent ++ [amsgs], noSystemRole l := by
      intro l hl
      rcases List.mem_append.mp hl with h1 | h2
      · exact hsent l h1
      · rcases List.mem_cons.mp h2 with he | ht
        · subst he; exact hms
        · exact absurd ht (List.not_mem_nil l)
    cases hb : backend amsgs with
    | error e =>
      rw [anthropicLoop_succ_err n calls sent tr hb]
      exact hsent'
    | ok r =>
      by_cases hsr : r.stop_reason = "tool_use".data
      · cases hp : processABlocks callTool r.content r.content amsgs tr with
        | mk amsgs' tr' =>
          rw [anthropicLoop_succ_tool n calls sent tr tr' hb hsr hp]
          apply ih amsgs' (calls + 1) (sent ++ [amsgs]) tr' ?_ hsent'
          have := pab_no_system callTool r.content r.content amsgs tr hms
          rw [hp] at this
          exact this
      · rw [anthropicLoop_succ_final n calls sent tr hb hsr]
        exact hsent'

/-- C10: in the Anthropic relay variant, every message list handed to
the backend — on every iteration, for every backend, tool router and
caller transcript — contains no entry with role `"system"`: the
conversion step silently drops every `"system"` message, and the loop
appends only `"assistant"`/`"user"` entries, so the leading system
message of the relay contract is never forwarded to the Anthropic
API. -/
theorem c10_anthropic_drops_system (sdk : Except PyErr Unit)
    (backend : List AMsg → Except PyErr AnResponse)
    (callTool : List Char → Json → Option Json) (msgs : List Json)
    (l : List AMsg)
    (hl : l ∈ (call_anthropic_chat sdk backend callTool msgs).sent)
    (m : AMsg) (hm : m ∈ l) :
    jsonEqStr m.role "system".data = false := by
  cases sdk with
  | error e => exact absurd hl (List.not_mem_nil l)
  | ok u =>
    cases hc : convertMessages msgs with
    | error e =>
      rw [show (call_anthropic_chat (.ok u) backend callTool msgs)
          = ⟨errPre e, msgs, 0, [], []⟩ by
        simp [call_anthropic_chat, hc]] at hl
      exact absurd hl (List.not_mem_nil l)
    | ok am0 =>
      rw [show (call_anthropic_chat (.ok u) backend callTool msgs)
          = anthropicLoop backend callTool msgs MAX_TOOL_ITERATIONS am0 0 [] []
          by simp [call_anthropic_chat, hc]] at hl
      exact anthropicLoop_sent_no_system backend callTool msgs
        MAX_TOOL_ITERATIONS am0 0 [] [] (convert_no_system msgs am0 hc)
        (fun l2 hl2 => absurd hl2 (List.not_mem_nil l2)) l hl m hm

/-- Witness for C10: with a system-then-user transcript, the single list
sent to the backend holds only the user entry, and its role is not
`"system"`. -/
theorem c10_anthropic_drops_system_witness :
    jsonEqStr c10UserAMsg.role "system".data = false := by
  have hl : [c10UserAMsg] ∈ (call_anthropic_chat (.ok ())
      (fun _ => .ok ⟨"end_turn".data, [ABlock.text "x".data]⟩)
      (fun _ _ => none) [c10SysMsg, c8UserMsg]).sent := by
    show [c10UserAMsg] ∈ [[c10UserAMsg]]
    exact List.mem_singleton.mpr rfl
  exact c10_anthropic_drops_system (.ok ())
    (fun _ => .ok ⟨"end_turn".data, [ABlock.text "x".data]⟩)
    (fun _ _ => none) [c10SysMsg, c8UserMsg] [c10UserAMsg] hl c10UserAMsg
    (List.mem_singleton.mpr rfl)

/-- C9: for a `read_resource` outcome with a single
`application/json`-typed contents entry whose `text` decodes as the JSON
object `{"k": 1}`, the caller-facing formatted result is the indent-2
re-serialization of the parsed object, which differs from the raw text
string. -/
theorem c9_read_resource_json_formatting
    (parse : List Char → Except PyErr Json)
    (hp : parse rawKText = .ok (Json.obj [("k".data, Json.num 1)])) :
    read_resource parse c9Outcome "doc://System.String".data
      = .ok (Json.str (dumpsI2 0 (Json.obj [("k".data, Json.num 1)])))
    ∧ dumpsI2 0 (Json.obj [("k".data, Json.num 1)])
      = lbrace :: "\n  \"k\": 1\n".data ++ [rbrace]
    ∧ ¬(dumpsI2 0 (Json.obj [("k".data, Json.num 1)]) = rawKText) := by
  have h1 : read_resource parse c9Outcome "doc://System.String".data
      = (match parse rawKText with
        | .error _ => .ok (Json.str rawKText)
        | .ok parsed => .ok (Json.str (dumpsI2 0 parsed))) := rfl
  refine ⟨?_, rfl, by decide⟩
  rw [h1, hp]

/-- Witness for C9 at a constant decoder returning `{"k": 1}`. -/
theorem c9_read_resource_json_formatting_witness :
    read_resource (fun _ => .ok (Json.obj [("k".data, Json.num 1)]))
        c9Outcome "doc://System.String".data
      = .ok (Json.str (dumpsI2 0 (Json.obj [("k".data, Json.num 1)]))) :=
  (c9_read_resource_json_formatting
    (fun _ => .ok (Json.obj [("k".data, Json.num 1)])) rfl).1
